import Mathlib

/-!
Verification development for the Inbound-Inventory-Manager repository.

The server side (src/Backend/server.js) is embedded as pure functions over an
explicit `ServerState`: the two database tables (inbound_sessions and
inbound_items) become Lean lists, the storage-level UNIQUE index on
serial_number becomes the explicit duplicate check performed at insertion
time, and `now` is passed as an explicit millisecond timestamp.  Each HTTP
handler becomes a function returning a structured result together with the
successor state; the JSON error strings of the handlers are represented by
the structured fields they interpolate (lock holder, locked SKU, counts).

The client side (src/Frontend/stores/inbound.ts, batched variant, and
src/Frontend/app/pages/index.vue) is embedded further below as a batch state
machine over an explicit `ClientState` / `UiState`.
-/

namespace Inbound

/-- Embeds the JavaScript String.trim used by toText of server.js: drop
leading and trailing whitespace.  Defined by structural recursion over the
character list so that terms evaluate inside the kernel. -/
def toText (s : String) : String :=
  ⟨((s.data.dropWhile Char.isWhitespace).reverse.dropWhile
      Char.isWhitespace).reverse⟩

/-- Embeds toUpperText of server.js: trim, then upper-case. -/
def toUpperText (s : String) : String :=
  ⟨(toText s).data.map Char.toUpper⟩

/-- Session status column: IN_PROGRESS, CONFIRMED or ABANDONED. -/
inductive SessionStatus where
  | inProgress
  | confirmed
  | abandoned
deriving DecidableEq, Repr

/-- One row of the inbound_sessions table. -/
structure Session where
  id : Nat
  outerBoxId : String
  innerBoxId : String
  expectedQty : Nat
  status : SessionStatus
  lockedBy : String
  lockedSku : Option String
  lastSeen : Nat
  confirmedAt : Option Nat
deriving DecidableEq, Repr

/-- One row of the inbound_items table. -/
structure Item where
  id : Nat
  sessionId : Nat
  outerBoxId : String
  innerBoxId : String
  sku : String
  serialNumber : String
  packedBy : String
deriving DecidableEq, Repr

/-- The whole persistent store: both tables plus the BIGSERIAL counters.
Lists are kept in insertion order, matching ascending id order because ids
are assigned from the strictly increasing counters. -/
structure ServerState where
  sessions : List Session
  items : List Item
  nextSessionId : Nat
  nextItemId : Nat
deriving DecidableEq, Repr

/-- The empty database the system starts from. -/
def initState : ServerState :=
  { sessions := [], items := [], nextSessionId := 1, nextItemId := 1 }

/-- Lease length in milliseconds (SESSION_LEASE_MS default: 2 minutes). -/
def LEASE_MS : Nat := 2 * 60 * 1000

/-- Embeds the lease check of the claim handler:
Date.now() - lastSeenMs > LEASE_MS, computed over the integers. -/
abbrev leaseExpired (now lastSeen : Nat) : Prop :=
  (LEASE_MS : Int) < (now : Int) - (lastSeen : Int)

/-- SELECT from inbound_sessions WHERE outerbox_id AND innerbox_id. -/
def findSession (st : ServerState) (outer inner : String) : Option Session :=
  st.sessions.find? (fun s => s.outerBoxId == outer && s.innerBoxId == inner)

/-- SELECT from inbound_sessions WHERE id. -/
def findSessionById (st : ServerState) (id : Nat) : Option Session :=
  st.sessions.find? (fun s => s.id == id)

/-- UPDATE of a single session row selected by id. -/
def updateSession (sessions : List Session) (s : Session) : List Session :=
  sessions.map (fun t => if t.id == s.id then s else t)

/-- The item view returned by the claim handler: sku and serial only. -/
structure ItemView where
  sku : String
  serial : String
deriving DecidableEq, Repr

/-- SELECT sku, serial_number FROM inbound_items WHERE session_id ORDER BY id.
The state item list is in insertion order, which is ascending id order. -/
def sessionItems (st : ServerState) (sid : Nat) : List ItemView :=
  (st.items.filter (fun it => it.sessionId == sid)).map
    (fun it => { sku := it.sku, serial := it.serialNumber })

/-- Result of POST /api/inbounds/sessions/claim. -/
inductive ClaimResult where
  | validationError
  | alreadyConfirmed
  | lockedByOther (holder : String)
  | ok (session : Session) (items : List ItemView)
deriving DecidableEq, Repr

/-- HTTP status the claim handler sends with each result. -/
def claimHttpStatus : ClaimResult → Nat
  | .validationError => 400
  | .alreadyConfirmed => 409
  | .lockedByOther _ => 409
  | .ok _ _ => 200

/-- Embeds POST /api/inbounds/sessions/claim (server.js lines 86-204).
expectedQty comes in as an arbitrary integer and is clamped by
Math.max(0, toInt(..)), which Int.toNat performs. -/
def claim (st : ServerState) (outerBoxId innerBoxId : String)
    (expectedQty : Int) (packedBy : String) (now : Nat) :
    ClaimResult × ServerState :=
  let outer := toText outerBoxId
  let inner := toText innerBoxId
  let pb := toText packedBy
  let qty : Nat := expectedQty.toNat
  if outer = "" ∨ inner = "" then (.validationError, st)
  else if pb = "" then (.validationError, st)
  else
    match findSession st outer inner with
    | none =>
        let s : Session :=
          { id := st.nextSessionId, outerBoxId := outer, innerBoxId := inner,
            expectedQty := qty, status := .inProgress, lockedBy := pb,
            lockedSku := none, lastSeen := now, confirmedAt := none }
        (.ok s [],
         { st with sessions := st.sessions ++ [s],
                   nextSessionId := st.nextSessionId + 1 })
    | some s =>
        if s.status = .confirmed then (.alreadyConfirmed, st)
        else if s.lockedBy ≠ pb ∧ ¬ leaseExpired now s.lastSeen then
          (.lockedByOther s.lockedBy, st)
        else
          let s' : Session :=
            { s with lockedBy := pb,
                     expectedQty := if 0 < qty then qty else s.expectedQty,
                     status := .inProgress, lastSeen := now }
          (.ok s' (sessionItems st s.id),
           { st with sessions := updateSession st.sessions s' })

/-- Result of POST /api/inbounds/items. -/
inductive ItemResult where
  | validationError
  | notFound
  | notInProgress
  | lockedByOther
  | skuMismatch (lockedSku offered : String)
  | duplicateSerial
  | created (item : Item)
deriving DecidableEq, Repr

/-- HTTP status the items handler sends with each result. -/
def itemHttpStatus : ItemResult → Nat
  | .validationError => 400
  | .notFound => 404
  | .notInProgress => 409
  | .lockedByOther => 403
  | .skuMismatch _ _ => 409
  | .duplicateSerial => 409
  | .created _ => 201

/-- The storage-level UNIQUE index inbound_items_serial_unique: does the
serial already exist anywhere in the ledger. -/
def serialExists (items : List Item) (sn : String) : Bool :=
  items.any (fun it => it.serialNumber == sn)

/-- UPDATE inbound_sessions SET last_seen WHERE id. -/
def touchLastSeen (sessions : List Session) (sid now : Nat) : List Session :=
  sessions.map (fun t => if t.id == sid then { t with lastSeen := now } else t)

/-- The item row the items handler INSERTs. -/
def newItemRow (st : ServerState) (s : Session) (sku sn pb : String) :
    Item :=
  { id := st.nextItemId, sessionId := s.id,
    outerBoxId := toText s.outerBoxId, innerBoxId := toText s.innerBoxId,
    sku := sku, serialNumber := sn, packedBy := pb }

/-- The INSERT INTO inbound_items part of the items handler, together with
the implicit heartbeat that follows a successful insert.  The duplicate
check embeds the UNIQUE index raising error 23505. -/
def insertItemRow (st : ServerState) (s : Session) (sku sn pb : String)
    (now : Nat) : ItemResult × ServerState :=
  if serialExists st.items sn then (.duplicateSerial, st)
  else
    let item : Item := newItemRow st s sku sn pb
    let st1 : ServerState :=
      { st with items := st.items ++ [item], nextItemId := st.nextItemId + 1 }
    (.created item, { st1 with sessions := touchLastSeen st1.sessions s.id now })

/-- Embeds POST /api/inbounds/items (server.js lines 237-313).  The handler
runs without a transaction: when locked_sku is unset it is UPDATEd and
committed before the item INSERT is attempted, so a later duplicate-serial
failure keeps the already-written locked_sku. -/
def insertItem (st : ServerState) (sessionId : Nat)
    (sku serialNumber packedBy : String) (now : Nat) :
    ItemResult × ServerState :=
  let sku' := toUpperText sku
  let sn := toUpperText serialNumber
  let pb := toText packedBy
  if sessionId = 0 ∨ sku' = "" ∨ sn = "" ∨ pb = "" then (.validationError, st)
  else
    match findSessionById st sessionId with
    | none => (.notFound, st)
    | some s =>
        if s.status ≠ .inProgress then (.notInProgress, st)
        else if toText s.lockedBy ≠ pb then (.lockedByOther, st)
        else
          match s.lockedSku with
          | none =>
              let st1 : ServerState :=
                { st with sessions :=
                    updateSession st.sessions { s with lockedSku := some sku' } }
              insertItemRow st1 s sku' sn pb now
          | some l =>
              if toUpperText l ≠ sku' then (.skuMismatch l sku', st)
              else insertItemRow st s sku' sn pb now

/-- Result of POST /api/inbounds/sessions/:id/complete. -/
inductive CompleteResult where
  | validationError
  | notFound
  | notInProgress
  | notOwner
  | qtyNotSet
  | quantityMismatch (scanned expected : Nat)
  | ok (session : Session) (scanned expected : Nat)
deriving DecidableEq, Repr

/-- HTTP status the complete handler sends with each result. -/
def completeHttpStatus : CompleteResult → Nat
  | .validationError => 400
  | .notFound => 404
  | .notInProgress => 409
  | .notOwner => 403
  | .qtyNotSet => 400
  | .quantityMismatch _ _ => 409
  | .ok _ _ _ => 200

/-- SELECT COUNT(*) FROM inbound_items WHERE session_id. -/
def countSessionItems (st : ServerState) (sid : Nat) : Nat :=
  (st.items.filter (fun it => it.sessionId == sid)).length

/-- Embeds POST /api/inbounds/sessions/:id/complete (server.js 320-399). -/
def complete (st : ServerState) (id : Nat) (packedBy : String) (now : Nat) :
    CompleteResult × ServerState :=
  let pb := toText packedBy
  if id = 0 then (.validationError, st)
  else if pb = "" then (.validationError, st)
  else
    match findSessionById st id with
    | none => (.notFound, st)
    | some s =>
        if s.status ≠ .inProgress then (.notInProgress, st)
        else if toText s.lockedBy ≠ pb then (.notOwner, st)
        else
          let scanned := countSessionItems st id
          let expected := s.expectedQty
          if expected = 0 then (.qtyNotSet, st)
          else if scanned ≠ expected then (.quantityMismatch scanned expected, st)
          else
            let s' : Session :=
              { s with status := .confirmed, confirmedAt := some now,
                       lastSeen := now }
            (.ok s' scanned expected,
             { st with sessions := updateSession st.sessions s' })

/-- Embeds POST /api/inbounds/sessions/:id/heartbeat (server.js 211-230):
refresh last_seen only where id, locked_by and IN_PROGRESS all match. -/
def heartbeat (st : ServerState) (id : Nat) (packedBy : String) (now : Nat) :
    Bool × ServerState :=
  let pb := toText packedBy
  if id = 0 ∨ pb = "" then (false, st)
  else if st.sessions.any
      (fun s => s.id == id && s.lockedBy == pb && s.status == .inProgress) then
    (true,
     { st with sessions := st.sessions.map (fun s =>
         if s.id == id && s.lockedBy == pb && s.status == .inProgress then
           { s with lastSeen := now } else s) })
  else (false, st)

/-- Embeds POST /api/inbounds/sessions/:id/abandon (server.js 406-426). -/
def abandonSession (st : ServerState) (id : Nat) (packedBy : String)
    (now : Nat) : Bool × ServerState :=
  let pb := toText packedBy
  if id = 0 ∨ pb = "" then (false, st)
  else if st.sessions.any
      (fun s => s.id == id && s.lockedBy == pb && s.status == .inProgress) then
    (true,
     { st with sessions := st.sessions.map (fun s =>
         if s.id == id && s.lockedBy == pb && s.status == .inProgress then
           { s with status := .abandoned, lastSeen := now } else s) })
  else (false, st)

/-- Result of POST /api/inbounds/sessions/:id/reset. -/
inductive ResetResult where
  | validationError
  | notFound
  | notOwner
  | notInProgress
  | ok (deletedItems : Nat)
deriving DecidableEq, Repr

/-- Embeds POST /api/inbounds/sessions/:id/reset (server.js 513-569):
delete every item of the session, mark it ABANDONED, clear locked_sku. -/
def resetServerSession (st : ServerState) (id : Nat) (packedBy : String)
    (now : Nat) : ResetResult × ServerState :=
  let pb := packedBy.trim
  if id = 0 then (.validationError, st)
  else if pb = "" then (.validationError, st)
  else
    match findSessionById st id with
    | none => (.notFound, st)
    | some s =>
        if s.lockedBy ≠ pb then (.notOwner, st)
        else if s.status ≠ .inProgress then (.notInProgress, st)
        else
          let deleted := countSessionItems st id
          let s' : Session :=
            { s with status := .abandoned, lastSeen := now, lockedSku := none }
          (.ok deleted,
           { st with
               items := st.items.filter (fun it => !(it.sessionId == id)),
               sessions := updateSession st.sessions s' })

/-- Embeds DELETE /api/inbounds/:serialNumber (server.js 500-507). -/
def deleteBySerial (st : ServerState) (serialNumber : String) :
    Nat × ServerState :=
  let sn := toUpperText serialNumber
  let remaining := st.items.filter (fun it => !(it.serialNumber == sn))
  (st.items.length - remaining.length, { st with items := remaining })

/-- One mutating request against the server, with its wall-clock time. -/
inductive Op where
  | claim (outer inner : String) (qty : Int) (packedBy : String) (now : Nat)
  | heartbeat (id : Nat) (packedBy : String) (now : Nat)
  | insertItem (sessionId : Nat) (sku serial packedBy : String) (now : Nat)
  | complete (id : Nat) (packedBy : String) (now : Nat)
  | abandon (id : Nat) (packedBy : String) (now : Nat)
  | reset (id : Nat) (packedBy : String) (now : Nat)
  | deleteBySerial (serial : String)
deriving DecidableEq, Repr

/-- State transition of one request (the read-only endpoints are omitted,
they do not mutate). -/
def applyOp (st : ServerState) : Op → ServerState
  | .claim outer inner qty pb now => (claim st outer inner qty pb now).2
  | .heartbeat id pb now => (heartbeat st id pb now).2
  | .insertItem sid sku sn pb now => (insertItem st sid sku sn pb now).2
  | .complete id pb now => (complete st id pb now).2
  | .abandon id pb now => (abandonSession st id pb now).2
  | .reset id pb now => (resetServerSession st id pb now).2
  | .deleteBySerial sn => (deleteBySerial st sn).2

/-- The state reached from the empty database by a request history. -/
def run (ops : List Op) : ServerState :=
  ops.foldl applyOp initState

/-- The ledger serials, in insertion order. -/
def serials (st : ServerState) : List String :=
  st.items.map (fun it => it.serialNumber)

/-- JavaScript toUpperCase without trimming. -/
def jsUpper (s : String) : String :=
  ⟨s.data.map Char.toUpper⟩

/-- One scanned item as the client stores it: sku and serial. -/
structure ScannedItem where
  sku : String
  serial : String
deriving DecidableEq, Repr

/-- The client batch state machine of the batched store variant
(src/Frontend/stores/inbound.ts).  Error and success message strings and
UI navigation flags are not modelled. -/
structure ClientState where
  innerBoxId : String
  expectedQty : Nat
  sku : String
  skuValidated : Bool
  items : List ScannedItem
  sessionId : Option Nat
  scanLocked : Bool
  batchLocked : Bool
  confirmedCount : Nat
  batchSize : Nat
  dbLockedSku : String
deriving DecidableEq, Repr

/-- Getter pendingCount: Math.max(0, items.length - confirmedCount), which
truncated Nat subtraction computes. -/
def pendingCount (st : ClientState) : Nat :=
  st.items.length - st.confirmedCount

/-- Getter canScanSerial of the batched store. -/
def canScanSerial (st : ClientState) : Bool :=
  st.innerBoxId != "" && decide (0 < st.expectedQty) && st.skuValidated &&
    st.sku != "" && !st.scanLocked && !st.batchLocked

/-- Getter canConfirmBatch of the batched store. -/
def canConfirmBatch (st : ClientState) : Bool :=
  decide (0 < pendingCount st) && decide (pendingCount st ≤ st.batchSize)

/-- Embeds the successful-claim tail of beginInnerbox (batched store,
lines 692-716): rehydrate from the claim response.  Everything already in
the ledger is treated as confirmed.  lockedSkuRaw is the lockedSku field of
the returned session (empty string for null). -/
def rehydrate (st : ClientState) (sid : Nat) (inner : String)
    (qty : Nat) (lockedSkuRaw : String) (serverItems : List ScannedItem) :
    ClientState :=
  let db := jsUpper (toText lockedSkuRaw)
  let db :=
    if db = "" then
      match serverItems with
      | [] => db
      | i :: _ => jsUpper i.sku
    else db
  { st with
      sessionId := some sid, innerBoxId := inner, expectedQty := qty,
      dbLockedSku := db, items := serverItems,
      confirmedCount := serverItems.length, batchLocked := false,
      sku := "", skuValidated := false, scanLocked := false }

/-- Embeds action addSerial of the batched store (lines 741-794).
serverOk is the outcome of the awaited createInboundItem request; the
returned Bool is the return value of the action. -/
def addSerial (st : ClientState) (incoming : String) (serverOk : Bool) :
    ClientState × Bool :=
  if st.scanLocked then (st, false)
  else
    let sn := toUpperText incoming
    if sn = "" then (st, false)
    else if st.sessionId = none then (st, false)
    else if ¬ st.skuValidated ∨ st.sku = "" then (st, false)
    else if sn = jsUpper st.sku then (st, false)
    else if st.items.any (fun i => i.serial == sn) then (st, false)
    else if serverOk then
      let items' := st.items ++ [{ sku := st.sku, serial := sn }]
      let pending := items'.length - st.confirmedCount
      ({ st with items := items', sku := "", skuValidated := false,
                 batchLocked :=
                   if st.batchSize ≤ pending then true else st.batchLocked },
       true)
    else (st, false)

/-- Embeds action confirmBatch of the batched store (lines 796-813): a pure
client-side counter advance, no API request is issued.  pending is computed
over the integers as in JavaScript. -/
def confirmBatch (st : ClientState) : ClientState × Bool :=
  let pending : Int := (st.items.length : Int) - (st.confirmedCount : Int)
  if pending ≤ 0 then (st, false)
  else if (st.batchSize : Int) < pending then (st, false)
  else
    ({ st with confirmedCount := st.confirmedCount + pending.toNat,
               batchLocked := false },
     true)

/-- Embeds action resetBatch of the batched store (lines 815-852).
serverOk is the outcome of the awaited deleteBatchItems request. -/
def resetBatch (st : ClientState) (serverOk : Bool) : ClientState × Bool :=
  if st.sessionId = none then (st, false)
  else
    let pendingItems := st.items.drop st.confirmedCount
    if pendingItems.length = 0 then (st, false)
    else if serverOk then
      let st1 :=
        { st with items := st.items.take st.confirmedCount,
                  batchLocked := false }
      (if st.confirmedCount = 0 then { st1 with dbLockedSku := "" } else st1,
       true)
    else (st, false)

/-- Embeds the JavaScript Array.findIndex as an Option-valued index. -/
def findIndex (p : α → Bool) : List α → Option Nat
  | [] => none
  | a :: l => if p a then some 0 else (findIndex p l).map (· + 1)

/-- Embeds action deletePendingItem of the batched store (lines 855-884).
splice(idx, 1) is take idx followed by drop (idx + 1). -/
def deletePendingItem (st : ClientState) (serial : String) (serverOk : Bool) :
    ClientState × Bool :=
  if st.sessionId = none then (st, false)
  else
    match findIndex (fun i => i.serial == serial) st.items with
    | none => (st, false)
    | some idx =>
        if idx < st.confirmedCount then (st, false)
        else if serverOk then
          let items' := st.items.take idx ++ st.items.drop (idx + 1)
          let pending := items'.length - st.confirmedCount
          ({ st with items := items',
                     batchLocked :=
                       if pending < st.batchSize then false
                       else st.batchLocked },
           true)
        else (st, false)

/-- One operation of the client batch state machine.  Server responses are
carried as Booleans. -/
inductive ClientOp where
  | rehydrate (sid : Nat) (inner : String) (qty : Nat)
      (lockedSkuRaw : String) (serverItems : List ScannedItem)
  | serialEntry (incoming : String) (serverOk : Bool)
  | confirmBatch
  | resetBatch (serverOk : Bool)
  | deletePendingItem (serial : String) (serverOk : Bool)
deriving DecidableEq, Repr

/-- State transition of one client operation.  Serial entry goes through the
batch gate the page enforces before calling the store action: onSerialEnter
returns immediately while batchLocked is set (index.vue lines 297-300), and
the serial input is disabled while canScanSerial is false. -/
def clientStep (st : ClientState) : ClientOp → ClientState
  | .rehydrate sid inner qty raw its => rehydrate st sid inner qty raw its
  | .serialEntry incoming serverOk =>
      if st.batchLocked then st else (addSerial st incoming serverOk).1
  | .confirmBatch => (confirmBatch st).1
  | .resetBatch serverOk => (resetBatch st serverOk).1
  | .deletePendingItem serial serverOk =>
      (deletePendingItem st serial serverOk).1

/-- The batch invariant stated by the specification: the pending suffix
never exceeds the batch size, and confirmed plus pending items account for
every item of the session. -/
def BatchInv (st : ClientState) : Prop :=
  st.confirmedCount + pendingCount st = st.items.length ∧
  pendingCount st ≤ st.batchSize

/-- The inductive strengthening of the batch invariant: the configured
batch size is positive (the store fixes it at 5) and a full pending batch
always has the batch lock set. -/
def ClientInv (st : ClientState) : Prop :=
  BatchInv st ∧ 0 < st.batchSize ∧
  (st.batchSize ≤ pendingCount st → st.batchLocked = true)

instance (st : ClientState) : Decidable (BatchInv st) := by
  unfold BatchInv
  infer_instance

instance (st : ClientState) : Decidable (ClientInv st) := by
  unfold ClientInv
  infer_instance

/-- Embeds lenOf of index.vue: (serial given or empty).trim().length. -/
def lenOf (s : String) : Nat :=
  (toText s).length

/-- One bump of the JavaScript Map counter: first occurrence order is kept,
matching Map insertion order. -/
def bumpCount (counts : List (Nat × Nat)) (n : Nat) : List (Nat × Nat) :=
  match counts with
  | [] => [(n, 1)]
  | (m, c) :: rest =>
      if m = n then (m, c + 1) :: rest else (m, c) :: bumpCount rest n

/-- The per-length counters of modeLenOfSerials, in first-occurrence order. -/
def countsOf (lengths : List Nat) : List (Nat × Nat) :=
  lengths.foldl bumpCount []

/-- The scan of modeLenOfSerials: starting from bestCount 0, replace the
best length whenever a strictly larger count appears, so on ties the
earliest first occurrence wins, as Map iteration order gives. -/
def pickMode (counts : List (Nat × Nat)) (best bestCount : Nat) : Nat :=
  match counts with
  | [] => best
  | (n, c) :: rest =>
      if bestCount < c then pickMode rest n c else pickMode rest best bestCount

/-- Embeds modeLenOfSerials of index.vue (lines 252-268): the statistical
mode of the positive trimmed lengths, none when no serial has one. -/
def modeLenOfSerials (serials : List String) : Option Nat :=
  let lengths := (serials.map lenOf).filter (fun n => decide (0 < n))
  match lengths with
  | [] => none
  | l0 :: _ => some (pickMode (countsOf lengths) l0 0)

/-- The page state around the store: the serial-length baseline refs of
index.vue plus the serials of already confirmed inner boxes, which the
duplicate pre-check of onSerialEnter consults through allSerialsSet. -/
structure UiState where
  store : ClientState
  expectedLenLocked : Option Nat
  tempBatchLen : Option Nat
  lengthMismatchLocked : Bool
  historySerials : List String
deriving DecidableEq, Repr

/-- Embeds serialExistsLocally of index.vue: the serial is already present
in a previous inner box or in the current item list. -/
def serialExistsLocally (ui : UiState) (sn : String) : Bool :=
  ui.historySerials.any (fun h => h == sn) ||
    ui.store.items.any (fun i => i.serial == sn)

/-- The baseline onSerialEnter compares against: the locked expected length
after the first full batch, otherwise the temporary first-batch length. -/
def baselineOf (ui : UiState) : Option Nat :=
  match ui.expectedLenLocked with
  | some b => some b
  | none => ui.tempBatchLen

/-- Embeds lockByLengthMismatch of index.vue (lines 270-282): set the
mismatch lock and the batch lock and clear the SKU scan cycle. -/
def lockByLengthMismatch (ui : UiState) : UiState :=
  { ui with
      lengthMismatchLocked := true,
      store :=
        { ui.store with
            batchLocked := true, sku := "", skuValidated := false } }

/-- The baseline comparison of onSerialEnter as a Boolean: there is a
baseline and the incoming trimmed length differs from it. -/
def lengthMismatch (ui : UiState) (incoming : String) : Bool :=
  match baselineOf ui with
  | some b => lenOf incoming != b
  | none => false

/-- Embeds onSerialEnter of index.vue (lines 290-356): gate on the mismatch
lock and the batch lock, pre-check duplicates, enforce the baseline length
before saving, and after the first successful save of a fresh batch record
its length as the temporary baseline. -/
def onSerialEnter (ui : UiState) (input : String) (serverOk : Bool) :
    UiState :=
  if ui.lengthMismatchLocked then ui
  else if ui.store.batchLocked then ui
  else
    let incoming := toUpperText input
    if incoming = "" then ui
    else if serialExistsLocally ui incoming then ui
    else if lengthMismatch ui incoming then
      lockByLengthMismatch ui
    else
      let r := addSerial ui.store incoming serverOk
      if r.2 = false then
        { ui with store := { r.1 with sku := "", skuValidated := false } }
      else
        let ui' := { ui with store := r.1 }
        if ui.expectedLenLocked = none ∧ ui.tempBatchLen = none then
          { ui' with tempBatchLen := some (lenOf incoming) }
        else ui'

/-- Embeds onConfirmBatch of index.vue (lines 484-521): refuse while the
mismatch lock is set; after the first confirm that reaches a full batch,
lock the baseline to the mode of the confirmed serial lengths, falling back
to the temporary length; drop the temporary length once a full batch is
confirmed; clear the mismatch lock and the SKU cycle. -/
def onConfirmBatch (ui : UiState) : UiState :=
  if ui.lengthMismatchLocked then ui
  else
    let r := confirmBatch ui.store
    if r.2 = false then { ui with store := r.1 }
    else
      let st' := r.1
      let ui1 := { ui with store := st' }
      let ui2 :=
        if ui.expectedLenLocked = none ∧ st'.batchSize ≤ st'.confirmedCount
        then
          let confirmedSerials :=
            (st'.items.take st'.confirmedCount).map (fun i => i.serial)
          { ui1 with expectedLenLocked :=
              match modeLenOfSerials confirmedSerials with
              | some m => some m
              | none => ui.tempBatchLen }
        else ui1
      let ui3 :=
        if st'.batchSize ≤ st'.confirmedCount then
          { ui2 with tempBatchLen := none }
        else ui2
      { ui3 with
          lengthMismatchLocked := false,
          store := { ui3.store with sku := "", skuValidated := false } }

/-- Embeds onresetBatch of index.vue (lines 523-562): a mismatch detected
before anything was saved is cleared locally; otherwise the store action
runs and on success the temporary baseline and the mismatch lock are
cleared along with the SKU cycle. -/
def onResetBatch (ui : UiState) (serverOk : Bool) : UiState :=
  if ui.lengthMismatchLocked ∧ pendingCount ui.store = 0 then
    { ui with
        lengthMismatchLocked := false, tempBatchLen := none,
        store :=
          { ui.store with
              batchLocked := false, sku := "", skuValidated := false } }
  else
    let r := resetBatch ui.store serverOk
    if r.2 = false then { ui with store := r.1 }
    else
      { ui with
          store := { r.1 with sku := "", skuValidated := false },
          tempBatchLen := none, lengthMismatchLocked := false }

/-! ### Concrete scenario states used by witnesses and counterexamples -/

/-- The session row as the complete handler rewrites it on success. -/
def confirmedRow (s : Session) (now : Nat) : Session :=
  { s with status := .confirmed, confirmedAt := some now, lastSeen := now }

/-- Scenario of section 8 of the specification: alice claims OB1/IB1 with
expected quantity 3 and scans three distinct serials of one SKU. -/
def opsScan3 : List Op :=
  [.claim "OB1" "IB1" 3 "alice" 0,
   .insertItem 1 "A100" "S1" "alice" 1,
   .insertItem 1 "A100" "S2" "alice" 2,
   .insertItem 1 "A100" "S3" "alice" 3]

/-- The session row reached by opsScan3. -/
def sessScan3 : Session :=
  { id := 1, outerBoxId := "OB1", innerBoxId := "IB1", expectedQty := 3,
    status := .inProgress, lockedBy := "alice", lockedSku := some "A100",
    lastSeen := 3, confirmedAt := none }

/-- The session row as the claim handler rewrites it on resume or takeover:
new holder, refreshed lastSeen, status kept IN_PROGRESS, and expected_qty
replaced exactly when the clamped resubmitted value is positive. -/
def resumedRow (s : Session) (pb : String) (qty : Int) (now : Nat) :
    Session :=
  { s with lockedBy := pb,
           expectedQty := if 0 < qty.toNat then qty.toNat else s.expectedQty,
           status := .inProgress, lastSeen := now }

/-- The session row the claim handler INSERTs on first creation. -/
def createdRow (st : ServerState) (outer inner pb : String) (qty : Int)
    (now : Nat) : Session :=
  { id := st.nextSessionId, outerBoxId := outer, innerBoxId := inner,
    expectedQty := qty.toNat, status := .inProgress, lockedBy := pb,
    lockedSku := none, lastSeen := now, confirmedAt := none }

/-- A single claim by alice at time 0: the state of one fresh session. -/
def opsAlice : List Op :=
  [.claim "OB1" "IB1" 3 "alice" 0]

/-- The state with one session row rewritten. -/
def withSession (st : ServerState) (s : Session) : ServerState :=
  { st with sessions := updateSession st.sessions s }

/-- Two independent sessions: bob owns IB1 and has recorded serial S1;
alice owns IB2, whose lockedSku is still unset. -/
def opsTwoSessions : List Op :=
  [.claim "OB" "IB1" 3 "bob" 0,
   .insertItem 1 "A100" "S1" "bob" 1,
   .claim "OB" "IB2" 3 "alice" 2]

/-- The session of alice in the two-session scenario. -/
def sessAliceIB2 : Session :=
  { id := 2, outerBoxId := "OB", innerBoxId := "IB2", expectedQty := 3,
    status := .inProgress, lockedBy := "alice", lockedSku := none,
    lastSeen := 2, confirmedAt := none }

/-- A session of alice that already holds as many items as expectedQty. -/
def opsOverfull : List Op :=
  [.claim "OB" "IB" 3 "alice" 0,
   .insertItem 1 "A100" "S1" "alice" 1,
   .insertItem 1 "A100" "S2" "alice" 2,
   .insertItem 1 "A100" "S3" "alice" 3]

/-- The session row reached by opsOverfull. -/
def sessOverfull : Session :=
  { id := 1, outerBoxId := "OB", innerBoxId := "IB", expectedQty := 3,
    status := .inProgress, lockedBy := "alice", lockedSku := some "A100",
    lastSeen := 3, confirmedAt := none }

/-- A full pending first batch under the invariant: five items scanned,
none confirmed, batch locked. -/
def clientBatchFull : ClientState :=
  { innerBoxId := "IB", expectedQty := 10, sku := "A100",
    skuValidated := true,
    items := [{ sku := "A100", serial := "S1" },
              { sku := "A100", serial := "S2" },
              { sku := "A100", serial := "S3" },
              { sku := "A100", serial := "S4" },
              { sku := "A100", serial := "S5" }],
    sessionId := some 1, scanLocked := false, batchLocked := true,
    confirmedCount := 0, batchSize := 5, dbLockedSku := "A100" }

/-- The store of uiLocked2: batch open, five confirmed serials. -/
def storeLocked2 : ClientState :=
  { clientBatchFull with batchLocked := false, confirmedCount := 5 }

/-- A page state whose baseline length 2 is already locked and whose batch
is open: five confirmed two-character serials. -/
def uiLocked2 : UiState :=
  { store := storeLocked2, expectedLenLocked := some 2,
    tempBatchLen := none, lengthMismatchLocked := false,
    historySerials := [] }

/-- A page state about to confirm its first full batch of two-character
serials, baseline not yet locked. -/
def uiFirstFull : UiState :=
  { store := clientBatchFull, expectedLenLocked := none,
    tempBatchLen := some 2, lengthMismatchLocked := false,
    historySerials := [] }

/-- The store of uiFresh: a brand-new session before any save. -/
def storeFresh : ClientState :=
  { innerBoxId := "IB", expectedQty := 10, sku := "A100",
    skuValidated := true, items := [], sessionId := some 1,
    scanLocked := false, batchLocked := false, confirmedCount := 0,
    batchSize := 5, dbLockedSku := "" }

/-- A page state of a brand-new session before any save. -/
def uiFresh : UiState :=
  { store := storeFresh, expectedLenLocked := none, tempBatchLen := none,
    lengthMismatchLocked := false, historySerials := [] }

end Inbound

/-! ## Theorems -/

namespace Inbound

/-- Counterexample to claim C1 as stated: with one IN_PROGRESS session held
by alice and a fresh lease, a claim by bob is refused exposing alice, but
the handler answers HTTP 409, not the 403 the claim names. -/
theorem C1_locked_by_other_is_409_not_403 :
    (claim (run opsAlice) "OB1" "IB1" 3 "bob" 1000).1 =
      ClaimResult.lockedByOther "alice" ∧
    claimHttpStatus (claim (run opsAlice) "OB1" "IB1" 3 "bob" 1000).1 = 409 ∧
    ¬ claimHttpStatus (claim (run opsAlice) "OB1" "IB1" 3 "bob" 1000).1 = 403
    := by
  decide

/-- Claim C1 as amended (status code 409 instead of 403): for an existing
IN_PROGRESS session, a claim by a different operator within the lease is
refused with the locked-by-other error exposing the holder and changes no
state; once the lease has expired the same claim takes the session over,
setting lockedBy to the new operator, refreshing lastSeen, keeping status
IN_PROGRESS and returning the items of the session in insertion order. -/
theorem C1_claim_lease_arbitration (st : ServerState)
    (outerBoxId innerBoxId : String) (qty : Int) (packedBy : String)
    (now : Nat) (s : Session)
    (houter : toText outerBoxId ≠ "")
    (hinner : toText innerBoxId ≠ "")
    (hpb : toText packedBy ≠ "")
    (hfind : findSession st (toText outerBoxId) (toText innerBoxId) = some s)
    (hstat : s.status = .inProgress) :
    (s.lockedBy ≠ toText packedBy → ¬ leaseExpired now s.lastSeen →
       (claim st outerBoxId innerBoxId qty packedBy now).1 =
         .lockedByOther s.lockedBy ∧
       claimHttpStatus
         (claim st outerBoxId innerBoxId qty packedBy now).1 = 409 ∧
       (claim st outerBoxId innerBoxId qty packedBy now).2 = st) ∧
    (leaseExpired now s.lastSeen →
       (claim st outerBoxId innerBoxId qty packedBy now).1 =
         .ok (resumedRow s (toText packedBy) qty now) (sessionItems st s.id) ∧
       (resumedRow s (toText packedBy) qty now).lockedBy = toText packedBy ∧
       (resumedRow s (toText packedBy) qty now).lastSeen = now ∧
       (resumedRow s (toText packedBy) qty now).status = .inProgress ∧
       (claim st outerBoxId innerBoxId qty packedBy now).2 =
         withSession st (resumedRow s (toText packedBy) qty now)) := by
  have hconf : s.status ≠ .confirmed := by
    rw [hstat]
    decide
  constructor
  · intro hother hlease
    simp [claim, claimHttpStatus, houter, hinner, hpb, hfind, hconf, hother,
      hlease, resumedRow, withSession]
  · intro hlease
    simp [claim, houter, hinner, hpb, hfind, hconf, hlease, resumedRow,
      withSession]

/-- Witness for the amended C1: bob is refused at 1 second with alice
exposed and nothing changed; at 200 seconds the lease has expired and bob
takes over. -/
theorem C1_claim_lease_arbitration_witness :
    (claim (run opsAlice) "OB1" "IB1" 3 "bob" 1000).1 =
      ClaimResult.lockedByOther "alice" ∧
    (claim (run opsAlice) "OB1" "IB1" 3 "bob" 1000).2 = run opsAlice ∧
    (claim (run opsAlice) "OB1" "IB1" 3 "bob" 200000).1 =
      ClaimResult.ok
        (resumedRow (createdRow initState "OB1" "IB1" "alice" 3 0)
          "bob" 3 200000) [] := by
  have h := C1_claim_lease_arbitration (run opsAlice) "OB1" "IB1" 3 "bob"
    1000 (createdRow initState "OB1" "IB1" "alice" 3 0)
    (by decide) (by decide) (by decide) (by decide) (by decide)
  have h2 := C1_claim_lease_arbitration (run opsAlice) "OB1" "IB1" 3 "bob"
    200000 (createdRow initState "OB1" "IB1" "alice" 3 0)
    (by decide) (by decide) (by decide) (by decide) (by decide)
  refine ⟨?_, ?_, ?_⟩
  · exact (h.1 (by decide) (by decide)).1
  · exact (h.1 (by decide) (by decide)).2.2
  · have h3 := (h2.2 (by decide)).1
    have hs : sessionItems (run opsAlice)
        (createdRow initState "OB1" "IB1" "alice" 3 0).id = [] := by decide
    rw [hs] at h3
    exact h3

/-- Counterexample to claim C6 as stated: a session stores expectedQty 10;
the same operator resumes it resubmitting 3, and the stored value drops to
3 instead of staying 10 — the update is not monotone. -/
theorem C6_expectedQty_lowered_by_resubmission :
    (findSessionById
        (claim (run [.claim "OB1" "IB1" 10 "alice" 0])
          "OB1" "IB1" 3 "alice" 5).2 1).map Session.expectedQty = some 3 ∧
    ¬ (findSessionById
        (claim (run [.claim "OB1" "IB1" 10 "alice" 0])
          "OB1" "IB1" 3 "alice" 5).2 1).map Session.expectedQty = some 10
    := by
  decide

/-- Claim C6 as amended: on every resume or takeover, the stored
expectedQty is replaced by the resubmitted value whenever its clamped value
is strictly positive — even when that lowers it — and is kept unchanged
exactly when the resubmitted value clamps to zero (omitted, zero or
negative). -/
theorem C6_claim_expectedQty_update (st : ServerState)
    (outerBoxId innerBoxId : String) (qty : Int) (packedBy : String)
    (now : Nat) (s : Session)
    (houter : toText outerBoxId ≠ "")
    (hinner : toText innerBoxId ≠ "")
    (hpb : toText packedBy ≠ "")
    (hfind : findSession st (toText outerBoxId) (toText innerBoxId) = some s)
    (hstat : s.status = .inProgress)
    (hallow : s.lockedBy = toText packedBy ∨ leaseExpired now s.lastSeen) :
    (claim st outerBoxId innerBoxId qty packedBy now).2 =
      withSession st (resumedRow s (toText packedBy) qty now) ∧
    (0 < qty.toNat →
      (resumedRow s (toText packedBy) qty now).expectedQty = qty.toNat) ∧
    (qty.toNat = 0 →
      (resumedRow s (toText packedBy) qty now).expectedQty = s.expectedQty)
    := by
  have hconf : s.status ≠ .confirmed := by
    rw [hstat]
    decide
  have hblock : ¬ (s.lockedBy ≠ toText packedBy ∧
      ¬ leaseExpired now s.lastSeen) := by
    rcases hallow with h | h
    · intro hc
      exact hc.1 h
    · intro hc
      exact hc.2 h
  refine ⟨?_, ?_, ?_⟩
  · simp only [claim, hfind]
    rw [if_neg (by simp [houter, hinner]), if_neg hpb, if_neg hconf,
      if_neg hblock]
    simp [resumedRow, withSession]
  · intro hq
    simp [resumedRow, hq]
  · intro hq
    simp [resumedRow, hq]

/-- Witness for the amended C6: resuming with 3 replaces the stored 10, and
resuming with 0 keeps the stored value. -/
theorem C6_claim_expectedQty_update_witness :
    (claim (run [.claim "OB1" "IB1" 10 "alice" 0])
        "OB1" "IB1" 3 "alice" 5).2 =
      withSession (run [.claim "OB1" "IB1" 10 "alice" 0])
        (resumedRow (createdRow initState "OB1" "IB1" "alice" 10 0)
          "alice" 3 5) ∧
    (resumedRow (createdRow initState "OB1" "IB1" "alice" 10 0)
        "alice" 3 5).expectedQty = 3 ∧
    (resumedRow (createdRow initState "OB1" "IB1" "alice" 10 0)
        "alice" 0 5).expectedQty = 10 := by
  have h := C6_claim_expectedQty_update (run [.claim "OB1" "IB1" 10 "alice" 0])
    "OB1" "IB1" 3 "alice" 5 (createdRow initState "OB1" "IB1" "alice" 10 0)
    (by decide) (by decide) (by decide) (by decide) (by decide)
    (Or.inl (by decide))
  have h0 := C6_claim_expectedQty_update
    (run [.claim "OB1" "IB1" 10 "alice" 0])
    "OB1" "IB1" 0 "alice" 5 (createdRow initState "OB1" "IB1" "alice" 10 0)
    (by decide) (by decide) (by decide) (by decide) (by decide)
    (Or.inl (by decide))
  refine ⟨h.1, ?_, ?_⟩
  · have := h.2.1 (by decide)
    simpa using this
  · have := h0.2.2 (by decide)
    simpa [createdRow] using this

/-- Counterexample to claim C7 as stated: a first claim with expectedQty 0
is not rejected — it succeeds with HTTP 200 and creates a session row
storing expected quantity 0. -/
theorem C7_first_claim_accepts_zero_qty :
    ¬ (claim initState "OB1" "IB1" 0 "alice" 0).1 =
        ClaimResult.validationError ∧
    claimHttpStatus (claim initState "OB1" "IB1" 0 "alice" 0).1 = 200 ∧
    (claim initState "OB1" "IB1" 0 "alice" 0).2.sessions.length = 1 ∧
    ((claim initState "OB1" "IB1" 0 "alice" 0).2.sessions.map
        Session.expectedQty) = [0] := by
  decide

/-- Claim C7 as amended: claim fails with the validation error (400) and
creates nothing exactly when outerBoxId, innerBoxId or the operator name is
trim-empty; expectedQty is never validated — a first creation accepts any
resubmitted quantity, stores its clamp to zero or above, and creates one
IN_PROGRESS session with an empty item list. -/
theorem C7_claim_validation_and_creation (st : ServerState)
    (outerBoxId innerBoxId : String) (qty : Int) (packedBy : String)
    (now : Nat) :
    ((toText outerBoxId = "" ∨ toText innerBoxId = "" ∨
        toText packedBy = "") →
       (claim st outerBoxId innerBoxId qty packedBy now).1 =
         .validationError ∧
       claimHttpStatus
         (claim st outerBoxId innerBoxId qty packedBy now).1 = 400 ∧
       (claim st outerBoxId innerBoxId qty packedBy now).2 = st) ∧
    (toText outerBoxId ≠ "" → toText innerBoxId ≠ "" →
     toText packedBy ≠ "" →
     findSession st (toText outerBoxId) (toText innerBoxId) = none →
       (claim st outerBoxId innerBoxId qty packedBy now).1 =
         .ok (createdRow st (toText outerBoxId) (toText innerBoxId)
           (toText packedBy) qty now) [] ∧
       (createdRow st (toText outerBoxId) (toText innerBoxId)
           (toText packedBy) qty now).status = .inProgress ∧
       (createdRow st (toText outerBoxId) (toText innerBoxId)
           (toText packedBy) qty now).expectedQty = qty.toNat ∧
       (claim st outerBoxId innerBoxId qty packedBy now).2.sessions =
         st.sessions ++ [createdRow st (toText outerBoxId)
           (toText innerBoxId) (toText packedBy) qty now] ∧
       (claim st outerBoxId innerBoxId qty packedBy now).2.items =
         st.items) := by
  constructor
  · intro h
    rcases h with h | h | h
    · simp [claim, h, claimHttpStatus]
    · have h1 : toText outerBoxId = "" ∨ toText innerBoxId = "" := Or.inr h
      simp [claim, h1, claimHttpStatus]
    · by_cases h1 : toText outerBoxId = "" ∨ toText innerBoxId = ""
      · simp [claim, h1, claimHttpStatus]
      · simp [claim, h1, h, claimHttpStatus]
  · intro houter hinner hpb hfind
    simp [claim, houter, hinner, hpb, hfind, createdRow]

/-- Witness for the amended C7: a claim with a blank operator is refused at
400 changing nothing, and a first claim with quantity 0 creates the row. -/
theorem C7_claim_validation_and_creation_witness :
    (claim initState "OB1" "IB1" 3 " " 0).1 = ClaimResult.validationError ∧
    (claim initState "OB1" "IB1" 3 " " 0).2 = initState ∧
    (claim initState "OB1" "IB1" 0 "alice" 0).1 =
      ClaimResult.ok (createdRow initState "OB1" "IB1" "alice" 0 0) [] := by
  have h := (C7_claim_validation_and_creation initState "OB1" "IB1" 3 " "
    0).1 (by decide)
  have h2 := (C7_claim_validation_and_creation initState "OB1" "IB1" 0
    "alice" 0).2 (by decide) (by decide) (by decide) (by decide)
  refine ⟨h.1, h.2.2, ?_⟩
  have h3 := h2.1
  simpa using h3

/-- A serial absent from the uniqueness index is not among the ledger
serials. -/
theorem not_mem_serials_of_not_exists {items : List Item} {sn : String}
    (h : ¬ serialExists items sn = true) :
    sn ∉ items.map (fun it => it.serialNumber) := by
  intro hmem
  apply h
  rw [List.mem_map] at hmem
  obtain ⟨it, hit, heq⟩ := hmem
  simp only [serialExists, List.any_eq_true]
  exact ⟨it, hit, by simp [heq]⟩

/-- Removing ledger rows keeps the serials duplicate-free. -/
theorem serials_nodup_filter (items : List Item) (p : Item → Bool)
    (h : (items.map (fun it => it.serialNumber)).Nodup) :
    ((items.filter p).map (fun it => it.serialNumber)).Nodup :=
  h.sublist ((List.filter_sublist items).map _)

/-- The claim handler never touches the item table. -/
theorem claim_preserves_items (st : ServerState) (o i : String) (q : Int)
    (pb : String) (now : Nat) : (claim st o i q pb now).2.items = st.items
    := by
  unfold claim
  dsimp only
  repeat' first | rfl | split

/-- The heartbeat handler never touches the item table. -/
theorem heartbeat_preserves_items (st : ServerState) (id : Nat)
    (pb : String) (now : Nat) : (heartbeat st id pb now).2.items = st.items
    := by
  unfold heartbeat
  dsimp only
  repeat' first | rfl | split

/-- The abandon handler never touches the item table. -/
theorem abandon_preserves_items (st : ServerState) (id : Nat)
    (pb : String) (now : Nat) :
    (abandonSession st id pb now).2.items = st.items := by
  unfold abandonSession
  dsimp only
  repeat' first | rfl | split

/-- The complete handler never touches the item table. -/
theorem complete_preserves_items (st : ServerState) (id : Nat)
    (pb : String) (now : Nat) : (complete st id pb now).2.items = st.items
    := by
  unfold complete
  dsimp only
  repeat' first | rfl | split

/-- The insert row step keeps the ledger serials duplicate-free: it either
refuses the duplicate and leaves the table alone, or appends a serial the
uniqueness index proved fresh. -/
theorem insertItemRow_nodup (st : ServerState) (s : Session)
    (sku sn pb : String) (now : Nat)
    (h : (serials st).Nodup) :
    (serials (insertItemRow st s sku sn pb now).2).Nodup := by
  unfold insertItemRow
  split
  · exact h
  · rename_i hex
    have hnm : sn ∉ st.items.map (fun it => it.serialNumber) :=
      not_mem_serials_of_not_exists (by simpa using hex)
    simp only [serials] at h ⊢
    rw [List.map_append]
    refine List.Nodup.append h (List.nodup_singleton _) ?_
    intro x hx hx'
    simp only [List.map_cons, List.map_nil, List.mem_singleton] at hx'
    subst hx'
    exact hnm hx

/-- The items handler keeps the ledger serials duplicate-free. -/
theorem insertItem_nodup (st : ServerState) (sid : Nat)
    (sku sn pb : String) (now : Nat)
    (h : (serials st).Nodup) :
    (serials (insertItem st sid sku sn pb now).2).Nodup := by
  unfold insertItem
  dsimp only
  split
  · exact h
  · split
    · exact h
    · split
      · exact h
      · split
        · exact h
        · split
          · exact insertItemRow_nodup _ _ _ _ _ _ h
          · split
            · exact h
            · exact insertItemRow_nodup _ _ _ _ _ _ h

/-- The reset handler keeps the ledger serials duplicate-free. -/
theorem reset_nodup (st : ServerState) (id : Nat) (pb : String) (now : Nat)
    (h : (serials st).Nodup) :
    (serials (resetServerSession st id pb now).2).Nodup := by
  unfold resetServerSession
  dsimp only
  split
  · exact h
  · split
    · exact h
    · split
      · exact h
      · split
        · exact h
        · split
          · exact h
          · exact serials_nodup_filter st.items _ h

/-- The serial delete handler keeps the ledger serials duplicate-free. -/
theorem deleteBySerial_nodup (st : ServerState) (sn : String)
    (h : (serials st).Nodup) :
    (serials (deleteBySerial st sn).2).Nodup :=
  serials_nodup_filter st.items _ h

/-- Every mutating request keeps the ledger serials duplicate-free. -/
theorem applyOp_nodup (st : ServerState) (op : Op)
    (h : (serials st).Nodup) : (serials (applyOp st op)).Nodup := by
  cases op with
  | claim o i q pb now =>
      show ((claim st o i q pb now).2.items.map _).Nodup
      rw [claim_preserves_items]
      exact h
  | heartbeat id pb now =>
      show ((heartbeat st id pb now).2.items.map _).Nodup
      rw [heartbeat_preserves_items]
      exact h
  | insertItem sid sku sn pb now => exact insertItem_nodup _ _ _ _ _ _ h
  | complete id pb now =>
      show ((complete st id pb now).2.items.map _).Nodup
      rw [complete_preserves_items]
      exact h
  | abandon id pb now =>
      show ((abandonSession st id pb now).2.items.map _).Nodup
      rw [abandon_preserves_items]
      exact h
  | reset id pb now => exact reset_nodup _ _ _ _ h
  | deleteBySerial sn => exact deleteBySerial_nodup _ _ h

/-- Folding a request history keeps the ledger serials duplicate-free. -/
theorem foldl_nodup (ops : List Op) :
    ∀ st : ServerState, (serials st).Nodup →
      (serials (List.foldl applyOp st ops)).Nodup := by
  induction ops with
  | nil =>
      intro st h
      exact h
  | cons op rest ih =>
      intro st h
      exact ih _ (applyOp_nodup st op h)

/-- Claim C2: in every reachable state the recorded serial numbers are
globally unique across the entire ledger, not just within one session; and
an otherwise valid insert whose normalized serial already exists anywhere
in the ledger fails with the duplicate-serial error and records no item. -/
theorem C2_serial_globally_unique :
    (∀ ops : List Op, (serials (run ops)).Nodup) ∧
    (∀ (st : ServerState) (sid : Nat) (sku serialNumber packedBy : String)
       (now : Nat) (s : Session),
       sid ≠ 0 → toUpperText sku ≠ "" → toUpperText serialNumber ≠ "" →
       toText packedBy ≠ "" →
       findSessionById st sid = some s →
       s.status = .inProgress →
       toText s.lockedBy = toText packedBy →
       (s.lockedSku = none ∨
         (∃ l, s.lockedSku = some l ∧ toUpperText l = toUpperText sku)) →
       serialExists st.items (toUpperText serialNumber) = true →
       (insertItem st sid sku serialNumber packedBy now).1 =
         .duplicateSerial ∧
       (insertItem st sid sku serialNumber packedBy now).2.items = st.items)
    := by
  constructor
  · intro ops
    exact foldl_nodup ops initState (by decide)
  · intro st sid sku serialNumber packedBy now s hsid hsku hsn hpb hfind
      hstat hown hcompat hdup
    rcases hcompat with hnone | ⟨l, hl, hmatch⟩
    · simp [insertItem, insertItemRow, hsid, hsku, hsn, hpb, hfind, hstat,
        hown, hnone, hdup]
    · simp [insertItem, insertItemRow, hsid, hsku, hsn, hpb, hfind, hstat,
        hown, hl, hmatch, hdup]

/-- Witness for C2: the two-session scenario has duplicate-free serials,
and re-inserting S1 through the second session is refused with the
duplicate error and adds no item. -/
theorem C2_serial_globally_unique_witness :
    (serials (run [.claim "OB" "IB1" 3 "bob" 0,
        .insertItem 1 "A100" "S1" "bob" 1,
        .claim "OB" "IB2" 3 "alice" 2])).Nodup ∧
    (insertItem (run [.claim "OB" "IB1" 3 "bob" 0,
        .insertItem 1 "A100" "S1" "bob" 1,
        .claim "OB" "IB2" 3 "alice" 2]) 2 "B200" "S1" "alice" 9).1 =
      ItemResult.duplicateSerial ∧
    (insertItem (run [.claim "OB" "IB1" 3 "bob" 0,
        .insertItem 1 "A100" "S1" "bob" 1,
        .claim "OB" "IB2" 3 "alice" 2]) 2 "B200" "S1" "alice" 9).2.items =
      (run [.claim "OB" "IB1" 3 "bob" 0,
        .insertItem 1 "A100" "S1" "bob" 1,
        .claim "OB" "IB2" 3 "alice" 2]).items := by
  have h1 := C2_serial_globally_unique.1
    [.claim "OB" "IB1" 3 "bob" 0, .insertItem 1 "A100" "S1" "bob" 1,
     .claim "OB" "IB2" 3 "alice" 2]
  have h2 := C2_serial_globally_unique.2
    (run [.claim "OB" "IB1" 3 "bob" 0, .insertItem 1 "A100" "S1" "bob" 1,
      .claim "OB" "IB2" 3 "alice" 2]) 2 "B200" "S1" "alice" 9
    { id := 2, outerBoxId := "OB", innerBoxId := "IB2", expectedQty := 3,
      status := .inProgress, lockedBy := "alice", lockedSku := none,
      lastSeen := 2, confirmedAt := none }
    (by decide) (by decide) (by decide) (by decide) (by decide) (by decide)
    (by decide) (Or.inl (by decide)) (by decide)
  exact ⟨h1, h2.1, h2.2⟩

/-- Claim C3: complete, called by the owning operator on an IN_PROGRESS
session whose expectedQty is positive, succeeds if and only if the item
count of the session equals expectedQty exactly, setting status CONFIRMED
and confirmedAt; when the count differs it fails with the quantity-mismatch
error carrying both the scanned and the expected counts and the state is
unchanged, so the session remains IN_PROGRESS. -/
theorem C3_complete_quantity_gate (st : ServerState) (id : Nat)
    (packedBy : String) (now : Nat) (s : Session)
    (hid : id ≠ 0)
    (hpb : toText packedBy ≠ "")
    (hfind : findSessionById st id = some s)
    (hstat : s.status = .inProgress)
    (hown : toText s.lockedBy = toText packedBy)
    (hqty : 0 < s.expectedQty) :
    (countSessionItems st id = s.expectedQty →
       (complete st id packedBy now).1 =
         .ok (confirmedRow s now) (countSessionItems st id) s.expectedQty ∧
       (complete st id packedBy now).2 =
         { st with sessions := updateSession st.sessions (confirmedRow s now) }) ∧
    (countSessionItems st id ≠ s.expectedQty →
       (complete st id packedBy now).1 =
         .quantityMismatch (countSessionItems st id) s.expectedQty ∧
       (complete st id packedBy now).2 = st) := by
  have hq0 : s.expectedQty ≠ 0 := Nat.pos_iff_ne_zero.mp hqty
  constructor
  · intro hc
    simp [complete, confirmedRow, hid, hpb, hfind, hstat, hown, hq0, hc]
  · intro hc
    simp [complete, hid, hpb, hfind, hstat, hown, hq0, hc]

/-- Witness for C3: after the three scans of opsScan3, complete by alice
succeeds with scanned 3 of expected 3, and with one item less it fails with
the mismatch counts. -/
theorem C3_complete_quantity_gate_witness :
    (complete (run opsScan3) 1 "alice" 9).1 =
      CompleteResult.ok (confirmedRow sessScan3 9) 3 3 ∧
    (complete (run opsScan3.dropLast) 1 "alice" 9).1 =
      CompleteResult.quantityMismatch 2 3 := by
  constructor
  · have h := (C3_complete_quantity_gate (run opsScan3) 1 "alice" 9 sessScan3
      (by decide) (by decide) (by decide) (by decide) (by decide)
      (by decide)).1
    exact (h (by decide)).1
  · have h := (C3_complete_quantity_gate (run opsScan3.dropLast) 1 "alice" 9
      { sessScan3 with lastSeen := 2 }
      (by decide) (by decide) (by decide) (by decide) (by decide)
      (by decide)).2
    exact (h (by decide)).1

end Inbound

namespace Inbound

/-- Claim C4: for an item insert into an owned IN_PROGRESS session with
valid inputs, an unset lockedSku is set to the case-normalized offered sku
by the call (on the duplicate path as well as on the success path); when
lockedSku is set, a differing normalized sku is refused with the mismatch
error naming both the locked and the offered SKU and changes nothing, and a
matching normalized sku is accepted. -/
theorem C4_session_sku_lock (st : ServerState) (sid : Nat)
    (sku serialNumber packedBy : String) (now : Nat) (s : Session)
    (hsid : sid ≠ 0)
    (hsku : toUpperText sku ≠ "")
    (hsn : toUpperText serialNumber ≠ "")
    (hpb : toText packedBy ≠ "")
    (hfind : findSessionById st sid = some s)
    (hstat : s.status = .inProgress)
    (hown : toText s.lockedBy = toText packedBy) :
    (s.lockedSku = none →
       serialExists st.items (toUpperText serialNumber) = true →
       (insertItem st sid sku serialNumber packedBy now).1 =
         .duplicateSerial ∧
       (insertItem st sid sku serialNumber packedBy now).2.sessions =
         updateSession st.sessions
           { s with lockedSku := some (toUpperText sku) }) ∧
    (s.lockedSku = none →
       serialExists st.items (toUpperText serialNumber) = false →
       (insertItem st sid sku serialNumber packedBy now).1 =
         .created (newItemRow st s (toUpperText sku)
           (toUpperText serialNumber) (toText packedBy)) ∧
       (insertItem st sid sku serialNumber packedBy now).2.sessions =
         touchLastSeen
           (updateSession st.sessions
             { s with lockedSku := some (toUpperText sku) }) s.id now) ∧
    (∀ l, s.lockedSku = some l → toUpperText l ≠ toUpperText sku →
       (insertItem st sid sku serialNumber packedBy now).1 =
         .skuMismatch l (toUpperText sku) ∧
       (insertItem st sid sku serialNumber packedBy now).2 = st) ∧
    (∀ l, s.lockedSku = some l → toUpperText l = toUpperText sku →
       serialExists st.items (toUpperText serialNumber) = false →
       (insertItem st sid sku serialNumber packedBy now).1 =
         .created (newItemRow st s (toUpperText sku)
           (toUpperText serialNumber) (toText packedBy))) := by
  refine ⟨?_, ?_, ?_, ?_⟩
  · intro hnone hdup
    simp [insertItem, insertItemRow, hsid, hsku, hsn, hpb, hfind, hstat,
      hown, hnone, hdup]
  · intro hnone hfresh
    simp [insertItem, insertItemRow, hsid, hsku, hsn, hpb, hfind, hstat,
      hown, hnone, hfresh, newItemRow]
  · intro l hl hne
    simp [insertItem, hsid, hsku, hsn, hpb, hfind, hstat, hown, hl, hne]
  · intro l hl heq hfresh
    simp [insertItem, insertItemRow, hsid, hsku, hsn, hpb, hfind, hstat,
      hown, hl, heq, hfresh, newItemRow]

/-- Witness for C4: in the two-session state, the first insert into the
session of alice pins its lockedSku, a second insert with another SKU is
refused naming both SKUs, and a matching insert is accepted. -/
theorem C4_session_sku_lock_witness :
    (insertItem (run opsTwoSessions) 2 "B200" "S9" "alice" 9).1 =
      ItemResult.created
        (newItemRow (run opsTwoSessions) sessAliceIB2 "B200" "S9" "alice") ∧
    (insertItem (run (opsTwoSessions ++
        [.insertItem 2 "B200" "S9" "alice" 9])) 2 "C300" "S10" "alice"
        10).1 =
      ItemResult.skuMismatch "B200" "C300" ∧
    (insertItem (run (opsTwoSessions ++
        [.insertItem 2 "B200" "S9" "alice" 9])) 2 "b200 " "S10" "alice"
        10).1 =
      ItemResult.created
        (newItemRow (run (opsTwoSessions ++
            [.insertItem 2 "B200" "S9" "alice" 9]))
          { sessAliceIB2 with lockedSku := some "B200", lastSeen := 9 }
          "B200" "S10" "alice") := by
  have h1 := C4_session_sku_lock (run opsTwoSessions) 2 "B200" "S9" "alice"
    9 sessAliceIB2 (by decide) (by decide) (by decide) (by decide)
    (by decide) (by decide) (by decide)
  have h2 := C4_session_sku_lock
    (run (opsTwoSessions ++ [.insertItem 2 "B200" "S9" "alice" 9])) 2
    "C300" "S10" "alice" 10
    { sessAliceIB2 with lockedSku := some "B200", lastSeen := 9 }
    (by decide) (by decide) (by decide) (by decide) (by decide) (by decide)
    (by decide)
  have h3 := C4_session_sku_lock
    (run (opsTwoSessions ++ [.insertItem 2 "B200" "S9" "alice" 9])) 2
    "b200 " "S10" "alice" 10
    { sessAliceIB2 with lockedSku := some "B200", lastSeen := 9 }
    (by decide) (by decide) (by decide) (by decide) (by decide) (by decide)
    (by decide)
  refine ⟨?_, ?_, ?_⟩
  · have := (h1.2.1 (by decide) (by decide)).1
    simpa using this
  · exact (h2.2.2.1 "B200" (by decide) (by decide)).1
  · have := h3.2.2.2 "B200" (by decide) (by decide) (by decide)
    simpa using this

/-- Claim C5: the failing input for the missing transaction in the items
handler.  The session of alice starts with lockedSku unset; her insert of
the already-recorded serial S1 fails with the duplicate error, yet the
state is not the state before the call: the UPDATE that pinned lockedSku
to A100 has already been committed.  This contradicts the stated
all-or-nothing propagation, which the code implements for claim, complete
and reset but not for the items handler. -/
theorem C5_duplicate_insert_leaks_lockedSku :
    (insertItem (run opsTwoSessions) 2 "A100" "S1" "alice" 9).1 =
      ItemResult.duplicateSerial ∧
    (findSessionById (run opsTwoSessions) 2).map Session.lockedSku =
      some none ∧
    (findSessionById
        (insertItem (run opsTwoSessions) 2 "A100" "S1" "alice" 9).2 2).map
        Session.lockedSku = some (some "A100") ∧
    ¬ (insertItem (run opsTwoSessions) 2 "A100" "S1" "alice" 9).2 =
        run opsTwoSessions := by
  decide

end Inbound

namespace Inbound

/-- Claim C10 (implicit): the items handler imposes no quantity cap — an
otherwise valid insert with a fresh serial and matching SKU succeeds even
when the item count of the session already reached or exceeded expectedQty,
incrementing the count; the expected quantity is enforced only by complete,
which refuses a session holding more items than expectedQty with the
mismatch counts and leaves it IN_PROGRESS. -/
theorem C10_insert_uncapped_complete_blocked :
    (∀ (st : ServerState) (sid : Nat) (sku serialNumber packedBy : String)
       (now : Nat) (s : Session) (l : String),
       sid ≠ 0 → toUpperText sku ≠ "" → toUpperText serialNumber ≠ "" →
       toText packedBy ≠ "" →
       findSessionById st sid = some s →
       s.status = .inProgress →
       toText s.lockedBy = toText packedBy →
       s.lockedSku = some l → toUpperText l = toUpperText sku →
       serialExists st.items (toUpperText serialNumber) = false →
       s.expectedQty ≤ countSessionItems st s.id →
       (insertItem st sid sku serialNumber packedBy now).1 =
         .created (newItemRow st s (toUpperText sku)
           (toUpperText serialNumber) (toText packedBy)) ∧
       countSessionItems (insertItem st sid sku serialNumber packedBy
         now).2 s.id = countSessionItems st s.id + 1) ∧
    (∀ (st : ServerState) (id : Nat) (packedBy : String) (now : Nat)
       (s : Session),
       id ≠ 0 → toText packedBy ≠ "" →
       findSessionById st id = some s →
       s.status = .inProgress →
       toText s.lockedBy = toText packedBy →
       0 < s.expectedQty →
       s.expectedQty < countSessionItems st id →
       (complete st id packedBy now).1 =
         .quantityMismatch (countSessionItems st id) s.expectedQty ∧
       (complete st id packedBy now).2 = st) := by
  constructor
  · intro st sid sku serialNumber packedBy now s l hsid hsku hsn hpb hfind
      hstat hown hl hmatch hfresh hcap
    constructor
    · simp [insertItem, insertItemRow, hsid, hsku, hsn, hpb, hfind, hstat,
        hown, hl, hmatch, hfresh, newItemRow]
    · simp [insertItem, insertItemRow, hsid, hsku, hsn, hpb, hfind, hstat,
        hown, hl, hmatch, hfresh, newItemRow, countSessionItems,
        List.filter_append]
  · intro st id packedBy now s hid hpb hfind hstat hown hq hover
    have hne : countSessionItems st id ≠ s.expectedQty :=
      Ne.symm (Nat.ne_of_lt hover)
    have hq0 : s.expectedQty ≠ 0 := Nat.pos_iff_ne_zero.mp hq
    simp [complete, hid, hpb, hfind, hstat, hown, hq0, hne]

/-- Witness for C10: bob already holds 3 = expectedQty items, a fourth
fresh serial is still accepted, and complete then fails with scanned 4 of
expected 3. -/
theorem C10_insert_uncapped_complete_blocked_witness :
    (insertItem (run opsOverfull) 1 "A100" "S4" "alice" 9).1 =
      ItemResult.created
        (newItemRow (run opsOverfull) sessOverfull "A100" "S4" "alice") ∧
    (complete (run (opsOverfull ++ [.insertItem 1 "A100" "S4" "alice" 9]))
        1 "alice" 10).1 = CompleteResult.quantityMismatch 4 3 := by
  have h1 := C10_insert_uncapped_complete_blocked.1 (run opsOverfull) 1
    "A100" "S4" "alice" 9 sessOverfull "A100"
    (by decide) (by decide) (by decide) (by decide) (by decide) (by decide)
    (by decide) (by decide) (by decide) (by decide) (by decide)
  have h2 := C10_insert_uncapped_complete_blocked.2
    (run (opsOverfull ++ [.insertItem 1 "A100" "S4" "alice" 9])) 1 "alice"
    10 { sessOverfull with lastSeen := 9 }
    (by decide) (by decide) (by decide) (by decide) (by decide) (by decide)
    (by decide)
  refine ⟨h1.1, ?_⟩
  have h3 := h2.1
  have hc : countSessionItems
      (run (opsOverfull ++ [.insertItem 1 "A100" "S4" "alice" 9])) 1 = 4
    := by decide
  rw [hc] at h3
  exact h3

end Inbound
namespace Inbound

/-- An index found by findIndex is in range. -/
theorem findIndex_lt_length {α : Type} {p : α → Bool} {l : List α}
    {i : Nat} (h : findIndex p l = some i) : i < l.length := by
  induction l generalizing i with
  | nil => simp [findIndex] at h
  | cons a t ih =>
      simp only [findIndex] at h
      split at h
      · cases h
        simp
      · rcases Option.map_eq_some'.mp h with ⟨j, hj, hji⟩
        subst hji
        simpa using Nat.succ_lt_succ (ih hj)

/-- Every client operation preserves the strengthened batch invariant. -/
theorem clientInv_preserved (st : ClientState) (op : ClientOp)
    (h : ClientInv st) : ClientInv (clientStep st op) := by
  obtain ⟨⟨h1, h2⟩, hpos, hlock⟩ := h
  cases op with
  | rehydrate sid inner qty raw its =>
      refine ⟨⟨?_, ?_⟩, ?_, ?_⟩ <;>
        simp [clientStep, rehydrate, pendingCount] <;> omega
  | serialEntry incoming serverOk =>
      simp only [clientStep]
      split
      · exact ⟨⟨h1, h2⟩, hpos, hlock⟩
      · rename_i hnb
        have hplt : pendingCount st < st.batchSize := by
          rcases Nat.lt_or_ge (pendingCount st) st.batchSize with hlt | hge
          · exact hlt
          · exact absurd (hlock hge) hnb
        unfold addSerial
        dsimp only
        split
        · exact ⟨⟨h1, h2⟩, hpos, hlock⟩
        · split
          · exact ⟨⟨h1, h2⟩, hpos, hlock⟩
          · split
            · exact ⟨⟨h1, h2⟩, hpos, hlock⟩
            · split
              · exact ⟨⟨h1, h2⟩, hpos, hlock⟩
              · split
                · exact ⟨⟨h1, h2⟩, hpos, hlock⟩
                · split
                  · exact ⟨⟨h1, h2⟩, hpos, hlock⟩
                  · split
                    · refine ⟨⟨?_, ?_⟩, ?_, ?_⟩
                      · simp [pendingCount] at h1 h2 ⊢
                        omega
                      · simp [pendingCount] at h1 h2 hplt ⊢
                        omega
                      · exact hpos
                      · intro hge
                        simp only [pendingCount] at hge hplt h1 h2
                        split
                        · rfl
                        · rename_i hcond
                          exfalso
                          simp [List.length_append] at hge hcond ⊢
                          omega
                    · exact ⟨⟨h1, h2⟩, hpos, hlock⟩
  | confirmBatch =>
      simp only [clientStep]
      unfold confirmBatch
      dsimp only
      split
      · exact ⟨⟨h1, h2⟩, hpos, hlock⟩
      · split
        · exact ⟨⟨h1, h2⟩, hpos, hlock⟩
        · rename_i hgt hle
          refine ⟨⟨?_, ?_⟩, ?_, ?_⟩
          · simp [pendingCount] at h1 h2 ⊢
            omega
          · simp [pendingCount] at h1 h2 ⊢
            omega
          · exact hpos
          · intro hge
            simp [pendingCount] at hge
            omega
  | resetBatch serverOk =>
      simp only [clientStep]
      unfold resetBatch
      dsimp only
      split
      · exact ⟨⟨h1, h2⟩, hpos, hlock⟩
      · split
        · exact ⟨⟨h1, h2⟩, hpos, hlock⟩
        · split
          · split
            · refine ⟨⟨?_, ?_⟩, ?_, ?_⟩ <;>
                simp [pendingCount, List.length_take] at h1 h2 ⊢ <;> omega
            · refine ⟨⟨?_, ?_⟩, ?_, ?_⟩ <;>
                simp [pendingCount, List.length_take] at h1 h2 ⊢ <;> omega
          · exact ⟨⟨h1, h2⟩, hpos, hlock⟩
  | deletePendingItem serial serverOk =>
      simp only [clientStep]
      unfold deletePendingItem
      dsimp only
      split
      · exact ⟨⟨h1, h2⟩, hpos, hlock⟩
      · split
        · exact ⟨⟨h1, h2⟩, hpos, hlock⟩
        · rename_i idx hidx
          have hlt : idx < st.items.length := findIndex_lt_length hidx
          split
          · exact ⟨⟨h1, h2⟩, hpos, hlock⟩
          · split
            · rename_i hge hok
              refine ⟨⟨?_, ?_⟩, ?_, ?_⟩
              · simp [pendingCount, List.length_take, List.length_drop]
                  at h1 h2 ⊢
                omega
              · simp [pendingCount, List.length_take, List.length_drop]
                  at h1 h2 ⊢
                omega
              · exact hpos
              · intro hge2
                simp only [pendingCount] at hge2 h1 h2
                split
                · rename_i hcond
                  exfalso
                  simp [List.length_take, List.length_drop] at hge2 hcond
                  omega
                · rename_i hcond
                  apply hlock
                  simp only [pendingCount]
                  simp [List.length_take, List.length_drop] at hge2 ⊢
                  omega
            · exact ⟨⟨h1, h2⟩, hpos, hlock⟩

end Inbound

namespace Inbound


/-- Claim C8: every operation of the client batch state machine preserves
the invariant that pending items never exceed the batch size and that
confirmed plus pending items account for every item of the session; while
a full batch is pending, serial entry is blocked; and confirmBatch succeeds
exactly when the pending count is positive and at most the batch size, in
which case it advances confirmedCount by the pending count, mutates no
ledger item and releases the batch lock (the store action takes no server
response because it issues no API request). -/
theorem C8_batch_invariants :
    (∀ (st : ClientState) (op : ClientOp),
       ClientInv st → ClientInv (clientStep st op)) ∧
    (∀ st : ClientState, ClientInv st → BatchInv st) ∧
    (∀ st : ClientState, ClientInv st → st.batchSize ≤ pendingCount st →
       canScanSerial st = false) ∧
    (∀ st : ClientState, (confirmBatch st).2 = true ↔
       (0 < pendingCount st ∧ pendingCount st ≤ st.batchSize)) ∧
    (∀ st : ClientState, (confirmBatch st).2 = true →
       (confirmBatch st).1.confirmedCount =
         st.confirmedCount + pendingCount st ∧
       (confirmBatch st).1.items = st.items ∧
       (confirmBatch st).1.batchLocked = false) := by
  refine ⟨clientInv_preserved, fun st h => h.1, ?_, ?_, ?_⟩
  · intro st h hge
    simp [canScanSerial, h.2.2 hge]
  · intro st
    unfold confirmBatch
    dsimp only
    split
    · rename_i hle
      simp only [pendingCount]
      constructor
      · intro hf
        simp at hf
      · rintro ⟨hp, _⟩
        exfalso
        omega
    · split
      · rename_i hle hgt
        simp only [pendingCount]
        constructor
        · intro hf
          simp at hf
        · rintro ⟨hp, hb⟩
          exfalso
          omega
      · rename_i hle hgt
        simp only [pendingCount]
        constructor
        · intro _
          constructor <;> omega
        · intro _
          trivial
  · intro st hok
    unfold confirmBatch at hok ⊢
    dsimp only at hok ⊢
    split at hok
    · simp at hok
    · split at hok
      · simp at hok
      · rename_i hle hgt
        rw [if_neg hle, if_neg hgt]
        refine ⟨?_, rfl, rfl⟩
        simp only [pendingCount]
        omega

/-- Witness for C8: on a full pending first batch the invariant survives a
batch confirm, serial entry is blocked, and confirmBatch succeeds advancing
confirmedCount from 0 to 5 with the items untouched. -/
theorem C8_batch_invariants_witness :
    ClientInv (clientStep clientBatchFull .confirmBatch) ∧
    canScanSerial clientBatchFull = false ∧
    (confirmBatch clientBatchFull).2 = true ∧
    (confirmBatch clientBatchFull).1.confirmedCount = 5 ∧
    (confirmBatch clientBatchFull).1.items = clientBatchFull.items := by
  refine ⟨C8_batch_invariants.1 clientBatchFull .confirmBatch (by decide),
    C8_batch_invariants.2.2.1 clientBatchFull (by decide) (by decide),
    (C8_batch_invariants.2.2.2.1 clientBatchFull).mpr (by decide), ?_, ?_⟩
  · have h := (C8_batch_invariants.2.2.2.2 clientBatchFull (by decide)).1
    simpa using h
  · exact (C8_batch_invariants.2.2.2.2 clientBatchFull (by decide)).2.1

end Inbound


namespace Inbound


/-- Claim C9: the page maintains a serial-length baseline — once a full
batch has been confirmed it is the statistical mode of the confirmed
serial lengths, and before the first full batch it is the length of the
first successfully saved serial of the still-open batch; every
subsequently entered fresh serial whose length differs from the current
baseline is rejected without being saved and raises the mismatch lock,
under which serial entry and batch confirm are no-ops until an explicit
batch reset clears it. -/
theorem C9_serial_length_baseline :
    (∀ (ui : UiState) (input : String) (serverOk : Bool) (b : Nat),
       ui.lengthMismatchLocked = false →
       ui.store.batchLocked = false →
       toUpperText input ≠ "" →
       serialExistsLocally ui (toUpperText input) = false →
       baselineOf ui = some b →
       lenOf (toUpperText input) ≠ b →
       onSerialEnter ui input serverOk = lockByLengthMismatch ui ∧
       (onSerialEnter ui input serverOk).store.items = ui.store.items ∧
       (onSerialEnter ui input serverOk).lengthMismatchLocked = true ∧
       (onSerialEnter ui input serverOk).store.batchLocked = true) ∧
    (∀ (ui : UiState) (input : String) (serverOk : Bool),
       ui.lengthMismatchLocked = true →
       onSerialEnter ui input serverOk = ui) ∧
    (∀ ui : UiState, ui.lengthMismatchLocked = true →
       onConfirmBatch ui = ui) ∧
    (∀ (ui : UiState) (serverOk : Bool),
       ui.lengthMismatchLocked = true → pendingCount ui.store = 0 →
       (onResetBatch ui serverOk).lengthMismatchLocked = false ∧
       (onResetBatch ui serverOk).store.batchLocked = false) ∧
    (∀ ui : UiState,
       ui.lengthMismatchLocked = true → ui.store.sessionId ≠ none →
       0 < pendingCount ui.store →
       (onResetBatch ui true).lengthMismatchLocked = false ∧
       (onResetBatch ui true).store.batchLocked = false) ∧
    (∀ ui : UiState,
       ui.lengthMismatchLocked = false →
       ui.expectedLenLocked = none →
       ui.store.confirmedCount ≤ ui.store.items.length →
       0 < pendingCount ui.store →
       pendingCount ui.store ≤ ui.store.batchSize →
       ui.store.batchSize ≤ ui.store.confirmedCount + pendingCount ui.store →
       (onConfirmBatch ui).expectedLenLocked =
         (match modeLenOfSerials
             (ui.store.items.map (fun i => i.serial)) with
          | some m => some m
          | none => ui.tempBatchLen)) ∧
    (∀ (ui : UiState) (input : String),
       ui.lengthMismatchLocked = false →
       ui.store.batchLocked = false →
       ui.expectedLenLocked = none →
       ui.tempBatchLen = none →
       toUpperText input = input →
       input ≠ "" →
       serialExistsLocally ui input = false →
       ui.store.scanLocked = false →
       ui.store.sessionId ≠ none →
       ui.store.skuValidated = true →
       ui.store.sku ≠ "" →
       input ≠ jsUpper ui.store.sku →
       (onSerialEnter ui input true).tempBatchLen = some (lenOf input) ∧
       (onSerialEnter ui input true).store.items =
         ui.store.items ++ [{ sku := ui.store.sku, serial := input }]) := by
  refine ⟨?_, ?_, ?_, ?_, ?_, ?_, ?_⟩
  · intro ui input serverOk b hml hbl hne hdup hb hlen
    have hmm : lengthMismatch ui (toUpperText input) = true := by
      simp [lengthMismatch, hb, hlen]
    refine ⟨?_, ?_, ?_, ?_⟩ <;>
      simp [onSerialEnter, hml, hbl, hne, hdup, hmm, lockByLengthMismatch]
  · intro ui input serverOk hml
    simp [onSerialEnter, hml]
  · intro ui hml
    simp [onConfirmBatch, hml]
  · intro ui serverOk hml hp
    constructor <;> simp [onResetBatch, hml, hp]
  · intro ui hml hsid hp
    have hcond : ¬ (ui.lengthMismatchLocked = true ∧
        pendingCount ui.store = 0) := by
      rintro ⟨_, h0⟩
      omega
    have hlen0 : ¬ ((ui.store.items.drop ui.store.confirmedCount).length
        = 0) := by
      simp only [List.length_drop]
      simp only [pendingCount] at hp
      omega
    have hr : (resetBatch ui.store true).2 = true := by
      unfold resetBatch
      rw [if_neg hsid, if_neg hlen0]
      rfl
    have hblock : (resetBatch ui.store true).1.batchLocked = false := by
      unfold resetBatch
      rw [if_neg hsid, if_neg hlen0, if_pos rfl]
      split <;> rfl
    constructor
    · unfold onResetBatch
      rw [if_neg hcond, if_neg (by simp [hr])]
    · unfold onResetBatch
      rw [if_neg hcond, if_neg (by simp [hr])]
      exact hblock
  · intro ui hml hexp hconf hp hple hfull
    have hle : ¬ ((ui.store.items.length : Int) -
        (ui.store.confirmedCount : Int) ≤ 0) := by
      simp only [pendingCount] at hp
      omega
    have hgt : ¬ ((ui.store.batchSize : Int) <
        (ui.store.items.length : Int) - (ui.store.confirmedCount : Int))
        := by
      simp only [pendingCount] at hple
      omega
    have hcb : confirmBatch ui.store =
        ({ ui.store with
             confirmedCount := ui.store.confirmedCount +
               (((ui.store.items.length : Int) -
                 (ui.store.confirmedCount : Int)).toNat),
             batchLocked := false }, true) := by
      unfold confirmBatch
      rw [if_neg hle, if_neg hgt]
    have hcc : ui.store.confirmedCount +
        (((ui.store.items.length : Int) -
          (ui.store.confirmedCount : Int)).toNat) =
        ui.store.items.length := by
      omega
    unfold onConfirmBatch
    rw [if_neg (by simp [hml]), hcb]
    dsimp only
    rw [if_neg (by simp)]
    rw [hcc]
    have hfull2 : ui.expectedLenLocked = none ∧
        ui.store.batchSize ≤ ui.store.items.length := by
      refine ⟨hexp, ?_⟩
      simp only [pendingCount] at hfull
      omega
    rw [if_pos hfull2, List.take_length]
    split <;> rfl
  · intro ui input hml hbl hexp htmp hnorm hne hdup hsl hsid hval hsku hner
    have hbase : baselineOf ui = none := by
      simp [baselineOf, hexp, htmp]
    have hmm : lengthMismatch ui input = false := by
      simp [lengthMismatch, hbase]
    have hcur : (ui.store.items.any (fun i => i.serial == input)) = false
        := by
      have h := hdup
      simp only [serialExistsLocally, Bool.or_eq_false_iff] at h
      exact h.2
    have haddok : (addSerial ui.store input true).2 = true := by
      unfold addSerial
      rw [if_neg (by simp [hsl])]
      dsimp only
      rw [hnorm, if_neg hne, if_neg hsid, if_neg (by simp [hval, hsku]),
        if_neg hner, if_neg (by simp [hcur])]
      rfl
    have hadditems : (addSerial ui.store input true).1.items =
        ui.store.items ++ [{ sku := ui.store.sku, serial := input }] := by
      unfold addSerial
      rw [if_neg (by simp [hsl])]
      dsimp only
      rw [hnorm, if_neg hne, if_neg hsid, if_neg (by simp [hval, hsku]),
        if_neg hner, if_neg (by simp [hcur])]
      rfl
    constructor
    · unfold onSerialEnter
      rw [if_neg (by simp [hml]), if_neg (by simp [hbl])]
      dsimp only
      rw [hnorm, if_neg hne, if_neg (by simp [hdup]), if_neg (by simp [hmm])]
      rw [if_neg (by simp [haddok])]
      rw [if_pos ⟨hexp, htmp⟩]
    · unfold onSerialEnter
      rw [if_neg (by simp [hml]), if_neg (by simp [hbl])]
      dsimp only
      rw [hnorm, if_neg hne, if_neg (by simp [hdup]), if_neg (by simp [hmm])]
      rw [if_neg (by simp [haddok])]
      rw [if_pos ⟨hexp, htmp⟩]
      dsimp only
      exact hadditems

/-- Witness for C9: a four-character serial against baseline 2 locks the
batch without saving; confirming the first full batch locks the baseline
to the mode length 2; the first successful save of a fresh session sets
the temporary baseline to the length of that serial. -/
theorem C9_serial_length_baseline_witness :
    (onSerialEnter uiLocked2 "S999" true).lengthMismatchLocked = true ∧
    (onSerialEnter uiLocked2 "S999" true).store.batchLocked = true ∧
    (onSerialEnter uiLocked2 "S999" true).store.items =
      uiLocked2.store.items ∧
    (onConfirmBatch uiFirstFull).expectedLenLocked = some 2 ∧
    (onSerialEnter uiFresh "S1" true).tempBatchLen = some 2 := by
  have ha := C9_serial_length_baseline.1 uiLocked2 "S999" true 2
    (by decide) (by decide) (by decide) (by decide) (by decide) (by decide)
  have hd := C9_serial_length_baseline.2.2.2.2.2.1 uiFirstFull
    (by decide) (by decide) (by decide) (by decide) (by decide) (by decide)
  have he := C9_serial_length_baseline.2.2.2.2.2.2 uiFresh "S1"
    (by decide) (by decide) (by decide) (by decide) (by decide) (by decide)
    (by decide) (by decide) (by decide) (by decide) (by decide) (by decide)
  refine ⟨ha.2.2.1, ha.2.2.2, ha.2.1, ?_, ?_⟩
  · exact hd.trans (by decide)
  · exact he.1.trans (by decide)

end Inbound
